import Mathlib

/-!
Verification of the posthub-backend core against its specification.

This file gives a shallow embedding of the repository's core components —
the like/dislike toggle engine (`app/crud/likes.py`), the comment tree
builder (`app/crud/comment.py`), the view deduplication tracker
(`app/crud/post_view.py`) and the post aggregation service
(`app/crud/post.py`) — over an explicit database state, and proves the
specified properties about them.

Modelling conventions:
* the ORM-backed tables become lists of rows inside a `DB` structure;
  auto-increment primary keys are modelled with explicit `next…Id` counters;
* timestamps are integers (seconds); `timedelta(hours=1)` is `3600`;
* Python `Optional` values become `Option`; the truthiness tests the code
  performs on them (`if user_id:`, `if ip_address:`, `if comment.parent_id:`)
  are modelled exactly: `None`, `0` and `""` are falsy;
* a raised exception becomes the `Except.error` case, propagated where the
  source has no `try`/`except`;
* `Model.get_or_none(...)` is modelled as the first matching row
  (`List.find?`); this agrees with the source whenever at most one row
  matches, which is the situation in every property proved below;
* `app/models/comment.py` declares no `parent` field and no `replies`
  relation, although `app/crud/comment.py` filters on `parent_id` and
  prefetches `replies`: awaiting such a query raises `FieldError`
  (modelled as `Except.error`, before any row or ordering is consulted),
  and an unknown constructor keyword is silently discarded on insert;
* the storage engine's possible failure of `PostView.save()` is modelled by
  the fault-injection flag `viewWriteFails` (false in normal operation).
-/

namespace PostHub

/-- Row of the `likes` table (`app/models/likes.py`): `id` primary key,
`user_id`/`post_id` foreign keys, `is_like` flag.  The auto-now
`created`/`updated` timestamps are not modelled; no verified property
reads them. -/
structure LikeRow where
  id : Nat
  user_id : Nat
  post_id : Nat
  is_like : Bool
deriving Repr, DecidableEq

/-- Row of the `post` table (`app/models/post.py`), restricted to the fields
the verified components read: `id`, `user_id`, `is_active`. -/
structure PostRow where
  id : Nat
  user_id : Nat
  is_active : Bool
deriving Repr, DecidableEq

/-- Row of the `comment` table (`app/models/comment.py`): the model
declares `id`, `user`, `post`, `comment` (called `text` here), `is_active`
and the timestamps — and, notably, no `parent` field: the table has no
`parent_id` column, even though the CRUD layer and the response schemas
refer to one. -/
structure CommentRow where
  id : Nat
  user_id : Nat
  post_id : Nat
  text : String
  is_active : Bool
  created : Int
deriving Repr, DecidableEq

/-- Row of the `comment_likes` table (`app/models/comment_likes.py`),
restricted to the fields read by the tree builder. -/
structure CommentLikeRow where
  id : Nat
  user_id : Nat
  comment_id : Nat
  is_like : Bool
deriving Repr, DecidableEq

/-- Row of the `post_view` table (`app/models/post_view.py`): `user_id` is
nullable (guest views), `ip_address` mandatory, `created` set on insert. -/
structure ViewRow where
  id : Nat
  post_id : Nat
  user_id : Option Nat
  ip_address : String
  user_agent : Option String
  created : Int
deriving Repr, DecidableEq

/-- The database state seen by the verified components.  `viewWriteFails`
is the storage fault-injection flag: when true, the insert performed by
`PostView.save()` raises (models an infrastructure failure). -/
structure DB where
  posts : List PostRow
  likes : List LikeRow
  comments : List CommentRow
  comment_likes : List CommentLikeRow
  views : List ViewRow
  nextLikeId : Nat
  nextCommentId : Nat
  nextViewId : Nat
  viewWriteFails : Bool
deriving Repr, DecidableEq

/-! ## Like/dislike toggle engine — `app/crud/likes.py` -/

/-- Model of `Post.filter(id=post_id).exists()`. -/
def postExists (db : DB) (post_id : Nat) : Bool :=
  db.posts.any (fun q => q.id == post_id)

/-- Model of `Likes.get_or_none(user_id=user_id, post_id=post_id)`
(first matching row; exact whenever at most one row matches). -/
def getUserLike (db : DB) (user_id post_id : Nat) : Option LikeRow :=
  db.likes.find? (fun l => l.user_id == user_id && l.post_id == post_id)

/-- Model of `Likes.filter(post_id=post_id, is_like=True).count()`. -/
def likesCount (db : DB) (post_id : Nat) : Nat :=
  db.likes.countP (fun l => l.post_id == post_id && l.is_like == true)

/-- Model of `Likes.filter(post_id=post_id, is_like=False).count()`. -/
def dislikesCount (db : DB) (post_id : Nat) : Nat :=
  db.likes.countP (fun l => l.post_id == post_id && l.is_like == false)

/-- The delete branch of `toggle_like` (line 42, `await existing.delete()`):
remove the row with the existing reaction's primary key. -/
def toggleDelete (db : DB) (existing : LikeRow) : DB :=
  {db with likes := db.likes.filter (fun l => l.id != existing.id)}

/-- The flip branch of `toggle_like` (lines 46–47): update `is_like` of the
existing row in place. -/
def toggleFlip (db : DB) (existing : LikeRow) (is_like : Bool) : DB :=
  let flipped := db.likes.map
    (fun l => if l.id == existing.id then {l with is_like := is_like} else l)
  {db with likes := flipped}

/-- The create branch of `toggle_like` (lines 51–52): insert a fresh
reaction row. -/
def toggleInsert (db : DB) (user_id post_id : Nat) (is_like : Bool) : DB :=
  let inserted := db.likes ++ [⟨db.nextLikeId, user_id, post_id, is_like⟩]
  {db with likes := inserted, nextLikeId := db.nextLikeId + 1}

/-- Model of `toggle_like(user_id, post_id, is_like)` from
`app/crud/likes.py` lines 32–59.  Raises `ValueError("Post not found")` when
the post does not exist; otherwise deletes, flips or creates the caller's
reaction row and returns `(liked, likes_count, dislikes_count)` recomputed
on the mutated table, together with the new database state. -/
def toggle_like (db : DB) (user_id post_id : Nat) (is_like : Bool) :
    Except String ((Bool × Nat × Nat) × DB) :=
  if !postExists db post_id then .error "Post not found"
  else
    let step : DB × Bool :=
      match getUserLike db user_id post_id with
      | some existing =>
        if existing.is_like == is_like then (toggleDelete db existing, false)
        else (toggleFlip db existing is_like, true)
      | none => (toggleInsert db user_id post_id is_like, true)
    .ok ((step.2, likesCount step.1 post_id, dislikesCount step.1 post_id), step.1)

/-! ## Storage schema of the `likes` table — `app/models/likes.py`, `Likes.Meta` -/

/-- Index declarations from `Likes.Meta.indexes` (lines 24–28 of
`app/models/likes.py`): plain, non-unique indexes. -/
def likesTableIndexes : List (List String) :=
  [["post_id"], ["is_like"], ["user_id", "post_id"]]

/-- Uniqueness constraints declared on the `likes` table.  `Likes.Meta`
declares none: there is no `unique_together` and no unique field beyond the
`id` primary key, so this list is empty. -/
def likesTableUniqueConstraints : List (List String) := []

/-- Projection of a `likes` row onto a column list, used to evaluate a
would-be uniqueness constraint (booleans encoded as 0/1). -/
def likeKey (cols : List String) (l : LikeRow) : List Nat :=
  cols.map (fun c =>
    if c = "user_id" then l.user_id
    else if c = "post_id" then l.post_id
    else if c = "is_like" then (if l.is_like then 1 else 0)
    else l.id)

/-- Whether the storage engine accepts inserting `r` into `rows`: the insert
is rejected only when it would violate one of the table's declared
uniqueness constraints. -/
def storageInsertAllowed (rows : List LikeRow) (r : LikeRow) : Bool :=
  likesTableUniqueConstraints.all
    (fun cols => rows.all (fun ex => !(likeKey cols ex == likeKey cols r)))

/-- The at-most-one-reaction-row invariant: no two rows of the `likes`
table share the same `(user_id, post_id)` pair. -/
def atMostOneReaction (rows : List LikeRow) : Prop :=
  rows.Pairwise (fun a b => ¬(a.user_id = b.user_id ∧ a.post_id = b.post_id))

instance (rows : List LikeRow) : Decidable (atMostOneReaction rows) := by
  unfold atMostOneReaction; infer_instance

/-! ## View deduplication tracker — `app/crud/post_view.py` -/

/-- The duplicate check of `record_view` (lines 17–32): whether a view row
with the code's dedup key exists within the one-hour window.
`one_hour_ago` is `now - timedelta(hours=1)` in seconds; the branch on
`if user_id:` follows Python truthiness (`None` and `0` are both falsy);
`created__gte=one_hour_ago` is the window test. -/
def viewExistsRecent (db : DB) (now : Int) (post_id : Nat) (ip_address : String)
    (user_id : Option Nat) : Bool :=
  let one_hour_ago : Int := now - 3600
  let by_user : Bool := match user_id with | some u => u != 0 | none => false
  if by_user then
    db.views.any (fun v =>
      decide (v.post_id = post_id ∧ v.user_id = user_id ∧ one_hour_ago ≤ v.created))
  else
    db.views.any (fun v =>
      decide (v.post_id = post_id ∧ v.ip_address = ip_address ∧ one_hour_ago ≤ v.created))

/-- The insert performed by `record_view` (lines 38–44): a new view row with
the current timestamp, and the id counter advanced. -/
def viewInsertState (db : DB) (now : Int) (post_id : Nat) (ip_address : String)
    (user_id : Option Nat) (user_agent : Option String) : DB :=
  let row : ViewRow := ⟨db.nextViewId, post_id, user_id, ip_address, user_agent, now⟩
  {db with views := db.views ++ [row], nextViewId := db.nextViewId + 1}

/-- Model of `record_view(post_id, ip_address, user_id, user_agent)` from
`app/crud/post_view.py` lines 9–45, with the call time `now` made explicit.
When a recent duplicate exists the call returns `False` without inserting;
otherwise it inserts one row and returns `True`.  The `PostView.save()`
call raises when the fault-injection flag `viewWriteFails` is set. -/
def record_view (db : DB) (now : Int) (post_id : Nat) (ip_address : String)
    (user_id : Option Nat) (user_agent : Option String) :
    Except String (Bool × DB) :=
  if viewExistsRecent db now post_id ip_address user_id then .ok (false, db)
  else if db.viewWriteFails then .error "view save failed"
  else .ok (true, viewInsertState db now post_id ip_address user_id user_agent)

/-- Model of `get_view_count(post_id)`:
`PostView.filter(post_id=post_id).count()`. -/
def get_view_count (db : DB) (post_id : Nat) : Nat :=
  db.views.countP (fun v => decide (v.post_id = post_id))

/-- Model of `get_unique_view_count(post_id)`:
`len(set(values_list("ip_address")))` — the number of distinct IP addresses
among the post's view rows (`List.dedup` models `set`). -/
def get_unique_view_count (db : DB) (post_id : Nat) : Nat :=
  ((db.views.filter (fun v => decide (v.post_id = post_id))).map
    (fun v => v.ip_address)).dedup.length

/-- The dedup condition of the view tracker, stated declaratively: a view
row for the same dedup key exists within the one-hour window.  The key is
`(post_id, user_id)` when `user_id` is present and nonzero (Python
truthiness), and `(post_id, ip_address)` otherwise. -/
def viewDedupHit (db : DB) (now : Int) (post_id : Nat) (ip_address : String)
    (user_id : Option Nat) : Prop :=
  match user_id with
  | some u =>
      (u ≠ 0 ∧ ∃ v ∈ db.views, v.post_id = post_id ∧ v.user_id = some u ∧ now - 3600 ≤ v.created)
    ∨ (u = 0 ∧ ∃ v ∈ db.views, v.post_id = post_id ∧ v.ip_address = ip_address ∧ now - 3600 ≤ v.created)
  | none => ∃ v ∈ db.views, v.post_id = post_id ∧ v.ip_address = ip_address ∧ now - 3600 ≤ v.created

instance (db : DB) (now : Int) (post_id : Nat) (ip_address : String)
    (user_id : Option Nat) : Decidable (viewDedupHit db now post_id ip_address user_id) := by
  unfold viewDedupHit
  cases user_id <;> infer_instance

/-! ## Comment component — `app/crud/comment.py` over `app/models/comment.py` -/

/-- The insert performed by `create_comment` (lines 23–30).  The
constructor call passes `parent_id=comment.parent_id`, but the `Comment`
model declares no `parent` field, so Tortoise discards the unknown keyword
argument: the stored row carries no parent link at all. -/
def commentInsertState (db : DB) (now : Int) (text : String) (is_active : Bool)
    (user_id post_id : Nat) : DB :=
  let row : CommentRow := ⟨db.nextCommentId, user_id, post_id, text, is_active, now⟩
  {db with comments := db.comments ++ [row], nextCommentId := db.nextCommentId + 1}

/-- Model of `create_comment(comment, user_id, post_id)` from
`app/crud/comment.py` lines 10–31, with the insert time `now` explicit.
Raises when the post does not exist; when `comment.parent_id` is truthy
(present and nonzero — Python truthiness) the parent must be an existing
comment on the same post (this lookup filters on `id` and `post_id`, both
real columns, so it executes fine).  The insert then drops `parent_id`
(no such model field), so the stored comment is indistinguishable from a
top-level one. -/
def create_comment (db : DB) (now : Int) (text : String) (is_active : Bool)
    (parent_id : Option Nat) (user_id post_id : Nat) :
    Except String (Nat × DB) :=
  if !postExists db post_id then .error "Post not found"
  else
    let inserted : Except String (Nat × DB) :=
      .ok (db.nextCommentId, commentInsertState db now text is_active user_id post_id)
    match parent_id with
    | some q =>
      if q = 0 then inserted
      else
        match db.comments.find? (fun c => decide (c.id = q ∧ c.post_id = post_id)) with
        | none => .error "Parent comment not found"
        | some _ => inserted
    | none => inserted

/-- The error Tortoise raises when a query filters on the nonexistent
`parent_id` column of the `comment` table. -/
def parentFieldError : String := "FieldError: unknown filter param parent_id"

/-- Model of `get_post_comments(post_id)` from `app/crud/comment.py`
lines 71–79.  The query filters on `parent_id=None` and prefetches a
`replies` relation, but the `Comment` model declares neither, so awaiting
the query raises `FieldError` on every call — no row list is ever
returned, whatever the database holds. -/
def get_post_comments (db : DB) (post_id : Nat) : Except String (List CommentRow) :=
  .error parentFieldError

/-- A node of the comment tree (the `CommentWithUser` response schema,
restricted to the fields this development reads; the author summary is not
modelled).  On the real schema no node is ever built from a nonempty
comment list, because the reply fetch raises first. -/
inductive CommentNode : Type where
  | mk : Nat → Bool → Int → Nat → List CommentNode → CommentNode
deriving Repr

/-- The node's comment id. -/
def CommentNode.nid : CommentNode → Nat
  | .mk i _ _ _ _ => i

/-- The node's `is_active` field. -/
def CommentNode.nactive : CommentNode → Bool
  | .mk _ a _ _ _ => a

/-- The node's `created` timestamp. -/
def CommentNode.ncreated : CommentNode → Int
  | .mk _ _ t _ _ => t

/-- The node's `likes_count` field. -/
def CommentNode.nlikes : CommentNode → Nat
  | .mk _ _ _ n _ => n

/-- The node's `replies` list. -/
def CommentNode.replies : CommentNode → List CommentNode
  | .mk _ _ _ _ rs => rs

/-- Model of `CommentLikes.filter(comment_id=…, is_like=True).count()`
(both valid columns of `comment_likes`; this query succeeds). -/
def commentLikesCount (db : DB) (comment_id : Nat) : Nat :=
  db.comment_likes.countP (fun l => decide (l.comment_id = comment_id ∧ l.is_like = true))

/-- Model of the reply fetch inside `build_comment_tree` (lines 90–93):
`Comment.filter(parent_id=comment.id, is_active=True)` filters on the
nonexistent `parent_id` column, so awaiting it raises `FieldError`. -/
def fetchReplies (db : DB) (comment_id : Nat) : Except String (List CommentRow) :=
  .error parentFieldError

/-- Model of `build_comment_tree(comments)` from `app/crud/comment.py`
lines 82–138.  The loop over the input comments computes the like count
and then awaits the reply fetch; on the real schema that fetch raises, so
the function returns the empty tree for an empty input and raises at the
first comment otherwise.  (The node construction below the fetch mirrors
the source but is unreachable for a nonempty input.) -/
def build_comment_tree (db : DB) : List CommentRow → Except String (List CommentNode)
  | [] => .ok []
  | c :: rest =>
    let likes_count := commentLikesCount db c.id
    match fetchReplies db c.id with
    | .error e => .error e
    | .ok replies =>
      let reply_list := replies.map (fun r =>
        CommentNode.mk r.id r.is_active r.created (commentLikesCount db r.id) [])
      match build_comment_tree db rest with
      | .error e => .error e
      | .ok tree =>
        .ok (CommentNode.mk c.id c.is_active c.created likes_count reply_list :: tree)

/-! ## Post aggregation service — `app/crud/post.py` -/

/-- The `PostDetail` response model, restricted to the fields the verified
properties read (the textual fields, images and author summary are not
modelled). -/
structure PostDetail where
  id : Nat
  user_id : Nat
  likes_count : Nat
  dislikes_count : Nat
  comments_count : Nat
  views_count : Nat
  comments : List CommentNode
  user_liked : Option Bool
  is_owner : Bool

/-- Model of `get_post_detail(post_id, user_id, ip_address, user_agent)`
from `app/crud/post.py` lines 48–110, with the request time `now` explicit.
The post must exist and be active, else the result is `none`.  When
`ip_address` is truthy the view is recorded first — the source has no
`try`/`except` around `record_view`, so an error raised there propagates.
The counts and the requester's reaction are then computed on the
post-recording state; the comment fetch that follows raises `FieldError`
on the real schema, so the composition step below it is unreachable. -/
def get_post_detail (db : DB) (now : Int) (post_id : Nat)
    (user_id : Option Nat) (ip_address : Option String) (user_agent : Option String) :
    Except String (Option PostDetail) :=
  match db.posts.find? (fun q => decide (q.id = post_id ∧ q.is_active = true)) with
  | none => .ok none
  | some post =>
    let record_step : Except String DB :=
      match ip_address with
      | some ip =>
        if ip = "" then .ok db
        else
          match record_view db now post_id ip user_id user_agent with
          | .error e => .error e
          | .ok (_, db2) => .ok db2
      | none => .ok db
    match record_step with
    | .error e => .error e
    | .ok db2 =>
      let likes_count := likesCount db2 post_id
      let dislikes_count := dislikesCount db2 post_id
      let comments_count := db2.comments.countP
        (fun c => decide (c.post_id = post_id ∧ c.is_active = true))
      let views_count := get_view_count db2 post_id
      let user_liked : Option Bool :=
        match user_id with
        | some u => if u ≠ 0 then (getUserLike db2 u post_id).map (fun l => l.is_like) else none
        | none => none
      let is_owner : Bool :=
        match user_id with
        | some u => if u ≠ 0 then decide (u = post.user_id) else false
        | none => false
      match get_post_comments db2 post_id with
      | .error e => .error e
      | .ok comments =>
        match build_comment_tree db2 comments with
        | .error e => .error e
        | .ok comment_tree =>
          .ok (some {
            id := post.id
            user_id := post.user_id
            likes_count := likes_count
            dislikes_count := dislikes_count
            comments_count := comments_count
            views_count := views_count
            comments := comment_tree
            user_liked := user_liked
            is_owner := is_owner })

/-! ## Helper lemmas about the toggle engine -/

/-- Lists of length at most one have at most one member. -/
lemma eq_of_mem_of_length_le_one {α : Type} {l : List α} {a b : α}
    (h : l.length ≤ 1) (ha : a ∈ l) (hb : b ∈ l) : a = b := by
  cases l with
  | nil => cases ha
  | cons x t =>
    cases t with
    | nil =>
      rw [List.mem_singleton] at ha hb
      rw [ha, hb]
    | cons y t2 => simp [List.length] at h

/-- Toggling with no prior reaction takes the create branch. -/
lemma toggle_like_of_none (db : DB) (u p : Nat) (X : Bool)
    (hpost : postExists db p = true) (h : getUserLike db u p = none) :
    toggle_like db u p X =
      .ok ((true, likesCount (toggleInsert db u p X) p,
        dislikesCount (toggleInsert db u p X) p), toggleInsert db u p X) := by
  simp [toggle_like, hpost, h]

/-- Toggling the polarity already stored takes the delete branch. -/
lemma toggle_like_of_some_same (db : DB) (u p : Nat) (X : Bool) (ex : LikeRow)
    (hpost : postExists db p = true) (h : getUserLike db u p = some ex)
    (hX : ex.is_like = X) :
    toggle_like db u p X =
      .ok ((false, likesCount (toggleDelete db ex) p,
        dislikesCount (toggleDelete db ex) p), toggleDelete db ex) := by
  simp [toggle_like, hpost, h, hX]

/-- Toggling the opposite polarity takes the in-place flip branch. -/
lemma toggle_like_of_some_diff (db : DB) (u p : Nat) (X : Bool) (ex : LikeRow)
    (hpost : postExists db p = true) (h : getUserLike db u p = some ex)
    (hX : ex.is_like ≠ X) :
    toggle_like db u p X =
      .ok ((true, likesCount (toggleFlip db ex X) p,
        dislikesCount (toggleFlip db ex X) p), toggleFlip db ex X) := by
  simp [toggle_like, hpost, h, hX]

/-- After the create branch the caller's stored reaction is the new row. -/
lemma getUserLike_toggleInsert (db : DB) (u p : Nat) (X : Bool)
    (h : getUserLike db u p = none) :
    getUserLike (toggleInsert db u p X) u p = some ⟨db.nextLikeId, u, p, X⟩ := by
  have h' : db.likes.find? (fun l => l.user_id == u && l.post_id == p) = none := h
  unfold getUserLike toggleInsert
  rw [List.find?_append, h']
  simp

/-- After the delete branch the caller has no stored reaction (assuming the
at-most-one-row invariant for this `(user, post)` pair). -/
lemma getUserLike_toggleDelete (db : DB) (u p : Nat) (ex : LikeRow)
    (huniq : (db.likes.filter (fun l => l.user_id == u && l.post_id == p)).length ≤ 1)
    (h : getUserLike db u p = some ex) :
    getUserLike (toggleDelete db ex) u p = none := by
  have h' : db.likes.find? (fun l => l.user_id == u && l.post_id == p) = some ex := h
  unfold getUserLike toggleDelete
  rw [List.find?_eq_none]
  intro x hx hpx
  rw [List.mem_filter] at hx
  obtain ⟨hxmem, hxid⟩ := hx
  have hexp := List.find?_some h'
  have hexf : ex ∈ db.likes.filter (fun l => l.user_id == u && l.post_id == p) :=
    List.mem_filter.mpr ⟨List.mem_of_find?_eq_some h', hexp⟩
  have hxf : x ∈ db.likes.filter (fun l => l.user_id == u && l.post_id == p) :=
    List.mem_filter.mpr ⟨hxmem, hpx⟩
  have hxe : x = ex := eq_of_mem_of_length_le_one huniq hxf hexf
  rw [hxe] at hxid
  simp at hxid

/-- After the flip branch the caller's stored reaction is the flipped row. -/
lemma getUserLike_toggleFlip (db : DB) (u p : Nat) (ex : LikeRow) (X : Bool)
    (h : getUserLike db u p = some ex) :
    getUserLike (toggleFlip db ex X) u p = some {ex with is_like := X} := by
  have h' : db.likes.find? (fun l => l.user_id == u && l.post_id == p) = some ex := h
  unfold getUserLike toggleFlip
  rw [List.find?_map]
  have hcomp : ((fun l : LikeRow => l.user_id == u && l.post_id == p) ∘
      (fun l => if l.id == ex.id then {l with is_like := X} else l)) =
      (fun l : LikeRow => l.user_id == u && l.post_id == p) := by
    funext l
    by_cases hb : l.id = ex.id <;> simp [hb]
  rw [hcomp, h']
  simp

/-! ## Claim C1 — the three-state toggle machine -/

/-- C1: for every user `u` and existing post `p` (with at most one stored
reaction row for the pair, the documented invariant), `toggle_like`
follows the three-state machine — no row: create a row with `is_like = X`
and report active; row of the same polarity: delete it and report
inactive; row of the opposite polarity: flip it in place and report
active — and the returned `likes_count`/`dislikes_count` are the counts of
reaction rows for `p` with `is_like` true/false after the mutation. -/
theorem toggle_like_state_machine (db : DB) (u p : Nat) (X : Bool)
    (hpost : postExists db p = true)
    (huniq : (db.likes.filter (fun l => l.user_id == u && l.post_id == p)).length ≤ 1) :
    ∃ liked lc dc db2,
      toggle_like db u p X = .ok ((liked, lc, dc), db2) ∧
      lc = likesCount db2 p ∧ dc = dislikesCount db2 p ∧
      (getUserLike db u p = none →
        liked = true ∧ getUserLike db2 u p = some ⟨db.nextLikeId, u, p, X⟩) ∧
      (∀ ex, getUserLike db u p = some ex → ex.is_like = X →
        liked = false ∧ getUserLike db2 u p = none) ∧
      (∀ ex, getUserLike db u p = some ex → ex.is_like ≠ X →
        liked = true ∧ getUserLike db2 u p = some {ex with is_like := X}) := by
  cases hex : getUserLike db u p with
  | none =>
    refine ⟨true, _, _, toggleInsert db u p X,
      toggle_like_of_none db u p X hpost hex, rfl, rfl, ?_, ?_, ?_⟩
    · intro _
      exact ⟨rfl, getUserLike_toggleInsert db u p X hex⟩
    · intro ex h' _
      cases h'
    · intro ex h' _
      cases h'
  | some ex =>
    by_cases hX : ex.is_like = X
    · refine ⟨false, _, _, toggleDelete db ex,
        toggle_like_of_some_same db u p X ex hpost hex hX, rfl, rfl, ?_, ?_, ?_⟩
      · intro h'
        cases h'
      · intro ex' h' _
        exact ⟨rfl, getUserLike_toggleDelete db u p ex huniq hex⟩
      · intro ex' h' hne
        injection h' with he
        rw [← he] at hne
        exact absurd hX hne
    · refine ⟨true, _, _, toggleFlip db ex X,
        toggle_like_of_some_diff db u p X ex hpost hex hX, rfl, rfl, ?_, ?_, ?_⟩
      · intro h'
        cases h'
      · intro ex' h' hX'
        injection h' with he
        rw [← he] at hX'
        exact absurd hX' hX
      · intro ex' h' _
        injection h' with he
        rw [← he]
        exact ⟨rfl, getUserLike_toggleFlip db u p ex X hex⟩

/-- A one-post database used to instantiate the toggle-engine theorems. -/
def toggleWitnessDB : DB := ⟨[⟨1, 9, true⟩], [], [], [], [], 1, 1, 1, false⟩

/-- Witness for C1: the state machine instantiated on a concrete database
with post 1 and user 5. -/
theorem toggle_like_state_machine_witness :
    (postExists toggleWitnessDB 1 = true ∧
      (toggleWitnessDB.likes.filter
        (fun l => l.user_id == 5 && l.post_id == 1)).length ≤ 1) ∧
    (∃ liked lc dc db2,
      toggle_like toggleWitnessDB 5 1 true = .ok ((liked, lc, dc), db2) ∧
      lc = likesCount db2 1 ∧ dc = dislikesCount db2 1 ∧
      (getUserLike toggleWitnessDB 5 1 = none →
        liked = true ∧ getUserLike db2 5 1 = some ⟨toggleWitnessDB.nextLikeId, 5, 1, true⟩) ∧
      (∀ ex, getUserLike toggleWitnessDB 5 1 = some ex → ex.is_like = true →
        liked = false ∧ getUserLike db2 5 1 = none) ∧
      (∀ ex, getUserLike toggleWitnessDB 5 1 = some ex → ex.is_like ≠ true →
        liked = true ∧ getUserLike db2 5 1 = some {ex with is_like := true})) :=
  ⟨⟨by decide, by decide⟩,
    toggle_like_state_machine toggleWitnessDB 5 1 true (by decide) (by decide)⟩

/-! ## Claim C6 — react / un-react round trip -/

/-- C6: from the no-reaction state, toggling the same polarity twice
returns the `(user, post)` pair to the no-reaction state; the first call
reports active and the second reports inactive. -/
theorem toggle_like_round_trip (db : DB) (u p : Nat) (X : Bool)
    (hpost : postExists db p = true) (hnone : getUserLike db u p = none) :
    ∃ r1 db1 r2 db2,
      toggle_like db u p X = .ok (r1, db1) ∧
      toggle_like db1 u p X = .ok (r2, db2) ∧
      r1.1 = true ∧ r2.1 = false ∧ getUserLike db2 u p = none := by
  have h1 := toggle_like_of_none db u p X hpost hnone
  have hpost1 : postExists (toggleInsert db u p X) p = true := hpost
  have hlike1 : getUserLike (toggleInsert db u p X) u p = some ⟨db.nextLikeId, u, p, X⟩ :=
    getUserLike_toggleInsert db u p X hnone
  have hfilter : db.likes.filter (fun l => l.user_id == u && l.post_id == p) = [] := by
    rw [List.filter_eq_nil_iff]
    intro a ha
    have h' : db.likes.find? (fun l => l.user_id == u && l.post_id == p) = none := hnone
    exact List.find?_eq_none.mp h' a ha
  have huniq1 : ((toggleInsert db u p X).likes.filter
      (fun l => l.user_id == u && l.post_id == p)).length ≤ 1 := by
    have hrows : (toggleInsert db u p X).likes =
        db.likes ++ [⟨db.nextLikeId, u, p, X⟩] := rfl
    rw [hrows, List.filter_append, hfilter]
    simp
  have h2 := toggle_like_of_some_same (toggleInsert db u p X) u p X
    ⟨db.nextLikeId, u, p, X⟩ hpost1 hlike1 rfl
  exact ⟨_, toggleInsert db u p X, _, toggleDelete (toggleInsert db u p X) ⟨db.nextLikeId, u, p, X⟩,
    h1, h2, rfl, rfl,
    getUserLike_toggleDelete (toggleInsert db u p X) u p ⟨db.nextLikeId, u, p, X⟩ huniq1 hlike1⟩

/-- Witness for C6: the round trip instantiated on the concrete database. -/
theorem toggle_like_round_trip_witness :
    (postExists toggleWitnessDB 1 = true ∧ getUserLike toggleWitnessDB 5 1 = none) ∧
    (∃ r1 db1 r2 db2,
      toggle_like toggleWitnessDB 5 1 true = .ok (r1, db1) ∧
      toggle_like db1 5 1 true = .ok (r2, db2) ∧
      r1.1 = true ∧ r2.1 = false ∧ getUserLike db2 5 1 = none) :=
  ⟨⟨by decide, by decide⟩,
    toggle_like_round_trip toggleWitnessDB 5 1 true (by decide) (by decide)⟩

/-! ## Claim C5 — the at-most-one-row invariant and its enforcement -/

/-- Every successful toggle leaves the database in one of the three branch
shapes. -/
lemma toggle_like_shape (db : DB) (u p : Nat) (X : Bool) (r : Bool × Nat × Nat)
    (db2 : DB) (h : toggle_like db u p X = .ok (r, db2)) :
    (getUserLike db u p = none ∧ db2 = toggleInsert db u p X) ∨
    (∃ ex, getUserLike db u p = some ex ∧
      (db2 = toggleDelete db ex ∨ db2 = toggleFlip db ex X)) := by
  by_cases hp : postExists db p = true
  · cases hex : getUserLike db u p with
    | none =>
      left
      rw [toggle_like_of_none db u p X hp hex] at h
      have h2 := congrArg Prod.snd (Except.ok.inj h)
      exact ⟨rfl, h2.symm⟩
    | some ex =>
      right
      by_cases hX : ex.is_like = X
      · rw [toggle_like_of_some_same db u p X ex hp hex hX] at h
        have h2 := congrArg Prod.snd (Except.ok.inj h)
        exact ⟨ex, rfl, Or.inl h2.symm⟩
      · rw [toggle_like_of_some_diff db u p X ex hp hex hX] at h
        have h2 := congrArg Prod.snd (Except.ok.inj h)
        exact ⟨ex, rfl, Or.inr h2.symm⟩
  · exfalso
    have hb : postExists db p = false := by
      cases hpe : postExists db p
      · rfl
      · exact absurd hpe hp
    simp [toggle_like, hb] at h

/-- Counterexample for C5: the schema of the `likes` table declares
`(user_id, post_id)` only as a plain index and declares no uniqueness
constraint at all, so the storage layer accepts a duplicate insert — the
at-most-one-row invariant is not storage-enforced, and the state reached by
the losing side of a duplicate-insert race violates it. -/
theorem likes_unique_not_storage_enforced_counterexample :
    ["user_id", "post_id"] ∈ likesTableIndexes ∧
    likesTableUniqueConstraints = [] ∧
    storageInsertAllowed [⟨1, 1, 1, true⟩] ⟨2, 1, 1, true⟩ = true ∧
    ¬ atMostOneReaction [⟨1, 1, 1, true⟩, ⟨2, 1, 1, true⟩] := by
  decide

/-- C5 (amended): the at-most-one-row invariant is preserved by every
sequential `toggle_like` call — it is maintained by the application's
check-then-act read, not by a storage-layer uniqueness constraint. -/
theorem toggle_like_preserves_at_most_one (db : DB) (u p : Nat) (X : Bool)
    (r : Bool × Nat × Nat) (db2 : DB)
    (h : toggle_like db u p X = .ok (r, db2))
    (hinv : atMostOneReaction db.likes) : atMostOneReaction db2.likes := by
  unfold atMostOneReaction at hinv ⊢
  rcases toggle_like_shape db u p X r db2 h with ⟨hnone, hdb⟩ | ⟨ex, hex, hdb | hdb⟩
  · subst hdb
    have hrows : (toggleInsert db u p X).likes =
        db.likes ++ [⟨db.nextLikeId, u, p, X⟩] := rfl
    rw [hrows, List.pairwise_append]
    refine ⟨hinv, List.pairwise_singleton _ _, ?_⟩
    intro a ha b hb
    rw [List.mem_singleton] at hb
    subst hb
    have h' : db.likes.find? (fun l => l.user_id == u && l.post_id == p) = none := hnone
    have hnp := List.find?_eq_none.mp h' a ha
    simp only [Bool.and_eq_true, beq_iff_eq, not_and] at hnp
    intro hcon
    exact hnp hcon.1 hcon.2
  · subst hdb
    have hrows : (toggleDelete db ex).likes =
        db.likes.filter (fun l => l.id != ex.id) := rfl
    rw [hrows]
    exact List.Pairwise.sublist (List.filter_sublist _) hinv
  · subst hdb
    have hrows : (toggleFlip db ex X).likes =
        db.likes.map (fun l => if l.id == ex.id then {l with is_like := X} else l) := rfl
    rw [hrows]
    have hu : ∀ l : LikeRow,
        ((if l.id == ex.id then {l with is_like := X} else l) : LikeRow).user_id = l.user_id := by
      intro l
      by_cases hb : l.id = ex.id <;> simp [hb]
    have hq : ∀ l : LikeRow,
        ((if l.id == ex.id then {l with is_like := X} else l) : LikeRow).post_id = l.post_id := by
      intro l
      by_cases hb : l.id = ex.id <;> simp [hb]
    refine List.Pairwise.map _ ?_ hinv
    intro a b hab hcon
    rw [hu a, hu b, hq a, hq b] at hcon
    exact hab hcon

/-- The state after the first toggle of the C5 witness. -/
def toggleWitnessDB2 : DB := ⟨[⟨1, 9, true⟩], [⟨1, 5, 1, true⟩], [], [], [], 2, 1, 1, false⟩

/-- Witness for the amended C5: a concrete toggle that preserves the
invariant. -/
theorem toggle_like_preserves_at_most_one_witness :
    (toggle_like toggleWitnessDB 5 1 true = .ok ((true, 1, 0), toggleWitnessDB2) ∧
      atMostOneReaction toggleWitnessDB.likes) ∧
    atMostOneReaction toggleWitnessDB2.likes :=
  ⟨⟨by rfl, by decide⟩,
    toggle_like_preserves_at_most_one toggleWitnessDB 5 1 true (true, 1, 0)
      toggleWitnessDB2 (by rfl) (by decide)⟩

/-- Initial database of the C3 scenarios: one active post, no views. -/
def viewCexDB0 : DB := ⟨[⟨1, 9, true⟩], [], [], [], [], 1, 1, 1, false⟩

/-- State after the first C3 counterexample call (a view for present-but-
falsy `user_id = 0` from IP "b"). -/
def viewCexDB1 : DB :=
  ⟨[⟨1, 9, true⟩], [], [], [], [⟨1, 1, some 0, "b", none, 0⟩], 1, 1, 2, false⟩

/-- State after the second C3 counterexample call: a second row for the
same post and same user 0, inserted although the first lies in the window. -/
def viewCexDB2 : DB :=
  ⟨[⟨1, 9, true⟩], [], [], [],
    [⟨1, 1, some 0, "b", none, 0⟩, ⟨2, 1, some 0, "a", none, 10⟩], 1, 1, 3, false⟩

/-! ## Claim C3 — view deduplication identity rule -/

/-- The duplicate check succeeds exactly when the declarative dedup
condition holds. -/
lemma viewExistsRecent_iff (db : DB) (now : Int) (p : Nat) (ip : String)
    (uid : Option Nat) :
    viewExistsRecent db now p ip uid = true ↔ viewDedupHit db now p ip uid := by
  cases uid with
  | none =>
    simp [viewExistsRecent, viewDedupHit, List.any_eq_true]
  | some u =>
    by_cases hu : u = 0
    · subst hu
      simp [viewExistsRecent, viewDedupHit, List.any_eq_true]
    · simp [viewExistsRecent, viewDedupHit, List.any_eq_true, hu]

/-- Counterexample for C3: `user_id = 0` is present but falsy in Python, so
the code dedups by IP although the claim's identity rule demands dedup by
user.  The second call targets the same post and the same present user
within the window — the claim requires `(false, no insert)` — yet the code
returns `true` and inserts (the IP differs). -/
theorem record_view_identity_rule_counterexample :
    record_view viewCexDB0 0 1 "b" (some 0) none = .ok (true, viewCexDB1) ∧
    (∃ v ∈ viewCexDB1.views,
      v.post_id = 1 ∧ v.user_id = some 0 ∧ (10 : Int) - 3600 ≤ v.created) ∧
    record_view viewCexDB1 10 1 "a" (some 0) none = .ok (true, viewCexDB2) :=
  ⟨by rfl, by decide, by rfl⟩

/-- C3 (amended): with the identity rule read through Python truthiness —
the dedup key is `(post_id, user_id)` whenever `user_id` is present and
nonzero, `(post_id, ip_address)` otherwise — `record_view` returns `false`
and inserts nothing exactly when a row with that key lies within the
one-hour window, and otherwise inserts one new row carrying the current
timestamp and returns `true`. -/
theorem record_view_dedup (db : DB) (now : Int) (p : Nat) (ip : String)
    (uid : Option Nat) (ua : Option String) (hw : db.viewWriteFails = false) :
    (viewDedupHit db now p ip uid → record_view db now p ip uid ua = .ok (false, db)) ∧
    (¬ viewDedupHit db now p ip uid →
      record_view db now p ip uid ua = .ok (true, viewInsertState db now p ip uid ua)) := by
  constructor
  · intro hhit
    have hE : viewExistsRecent db now p ip uid = true :=
      (viewExistsRecent_iff db now p ip uid).mpr hhit
    unfold record_view
    rw [hE]
    simp
  · intro hmiss
    have hE : viewExistsRecent db now p ip uid = false := by
      cases hEe : viewExistsRecent db now p ip uid
      · rfl
      · exact absurd ((viewExistsRecent_iff db now p ip uid).mp hEe) hmiss
    unfold record_view
    rw [hE, hw]
    simp

/-- The state after the first accepted view of the C3 witness. -/
def viewWitDB1 : DB := ⟨[⟨1, 9, true⟩], [], [], [], [⟨1, 1, some 7, "a", none, 0⟩], 1, 1, 2, false⟩

/-- Witness for the amended C3: an authenticated user's first view is
accepted; a second view within the window is suppressed by user id even
from a different IP. -/
theorem record_view_dedup_witness :
    (viewCexDB0.viewWriteFails = false ∧ ¬ viewDedupHit viewCexDB0 0 1 "a" (some 7)) ∧
    record_view viewCexDB0 0 1 "a" (some 7) none = .ok (true, viewWitDB1) ∧
    (viewDedupHit viewWitDB1 100 1 "zz" (some 7) ∧
      record_view viewWitDB1 100 1 "zz" (some 7) none = .ok (false, viewWitDB1)) :=
  ⟨⟨rfl, by decide⟩,
    (record_view_dedup viewCexDB0 0 1 "a" (some 7) none rfl).2 (by decide),
    ⟨by decide, (record_view_dedup viewWitDB1 100 1 "zz" (some 7) none rfl).1 (by decide)⟩⟩

/-! ## Claim C8 — read-side view metrics -/

/-- C8: `get_view_count` is the raw number of view rows recorded for the
post, and `get_unique_view_count` is the number of distinct IP addresses
ever recorded for it; neither metric depends on any time window (no time
parameter occurs). -/
theorem view_read_metrics (db : DB) (p : Nat) :
    get_view_count db p =
      (db.views.filter (fun v => decide (v.post_id = p))).length ∧
    get_unique_view_count db p =
      ((db.views.filter (fun v => decide (v.post_id = p))).map
        (fun v => v.ip_address)).toFinset.card := by
  constructor
  · exact List.countP_eq_length_filter _ _
  · exact (List.card_toFinset _).symm

/-! ## Claim C2 — the comment tree query raises on the real schema -/

/-- C2 (code bug): the pipeline can never deliver the claimed ordered
tree — `get_post_comments` raises `FieldError` on every call because the
`comment` table has no `parent_id` column and no `replies` relation, and
`build_comment_tree` raises at the first comment of any nonempty input
for the same reason. -/
theorem comment_tree_always_raises (db : DB) (p : Nat) (c : CommentRow)
    (rest : List CommentRow) :
    get_post_comments db p = .error parentFieldError ∧
    build_comment_tree db (c :: rest) = .error parentFieldError :=
  ⟨rfl, rfl⟩

/-! ## Claim C7 — no empty list either: the query raises regardless of data -/

/-- A database whose only comment on post 2 is inactive; post 5 does not
exist. -/
def inactiveDB : DB :=
  ⟨[⟨2, 9, true⟩], [], [⟨1, 9, 2, "x", false, 0⟩], [], [], 1, 2, 1, false⟩

/-- C7 (code bug): for a post id all of whose comments are inactive, and
equally for a post id that refers to no post, `get_post_comments` raises
`FieldError` instead of returning the empty list — the filter on the
nonexistent `parent_id` column fails before any data is consulted. -/
theorem comment_tree_inactive_post_raises :
    (∀ c ∈ inactiveDB.comments, c.post_id = 2 → c.is_active = false) ∧
    get_post_comments inactiveDB 2 = .error parentFieldError ∧
    ∀ l : List CommentRow, get_post_comments inactiveDB 5 ≠ .ok l := by
  refine ⟨by decide, rfl, ?_⟩
  intro l h
  exact Except.noConfusion h

/-! ## Claim C10 — the parent link is dropped on insert -/

/-- A database with a post, a comment (id 1) and a second comment (id 2)
that was submitted as a reply to it — stored, like every comment, without
any parent link. -/
def deepReplyDB : DB :=
  ⟨[⟨1, 9, true⟩], [],
    [⟨1, 9, 1, "top", true, 0⟩, ⟨2, 9, 1, "reply", true, 1⟩],
    [], [], 1, 3, 1, false⟩

/-- The state after the C10 insert: one more parentless comment row. -/
def deepReplyDB2 : DB :=
  ⟨[⟨1, 9, true⟩], [],
    [⟨1, 9, 1, "top", true, 0⟩, ⟨2, 9, 1, "reply", true, 1⟩, ⟨3, 9, 1, "deep", true, 2⟩],
    [], [], 1, 4, 1, false⟩

/-- C10 (code bug): `create_comment` does accept a `parent_id` referencing
any existing comment of the post, but the insert drops the parent link —
the `Comment` model has no such field — so the new row is stored exactly
as a top-level comment: passing `parent_id = some 2` and passing no parent
produce identical states, no reply-to-reply (indeed no reply at all) is
ever stored, and the tree builder raises rather than rendering or omitting
anything. -/
theorem create_comment_drops_parent_link :
    create_comment deepReplyDB 2 "deep" true (some 2) 9 1 = .ok (3, deepReplyDB2) ∧
    create_comment deepReplyDB 2 "deep" true (some 2) 9 1 =
      create_comment deepReplyDB 2 "deep" true none 9 1 ∧
    (⟨3, 9, 1, "deep", true, 2⟩ : CommentRow) ∈ deepReplyDB2.comments ∧
    build_comment_tree deepReplyDB2 deepReplyDB2.comments = .error parentFieldError :=
  ⟨rfl, rfl, by decide, rfl⟩

/-! ## Claim C4 — view-recording failures are not swallowed -/

/-- A database with one active post whose storage raises on view insert. -/
def pdCexDB : DB := ⟨[⟨1, 9, true⟩], [], [], [], [], 1, 1, 1, true⟩

/-- Counterexample for C4: on an existing active post, a failure raised
while recording the view makes `get_post_detail` return that error — the
composed `PostDetail` is not returned, because the source has no
`try`/`except` around `record_view`. -/
theorem view_record_failure_not_swallowed_counterexample :
    get_post_detail pdCexDB 0 1 none (some "1.2.3.4") none =
      .error "view save failed" := rfl

/-- C4 (amended): whenever the post is found active, the ip address is
truthy and `record_view` raises, `get_post_detail` propagates exactly that
error instead of returning a `PostDetail`. -/
theorem get_post_detail_propagates_view_error (db : DB) (now : Int) (p : Nat)
    (uid : Option Nat) (ip : String) (ua : Option String) (post : PostRow) (e : String)
    (hpost : db.posts.find? (fun q => decide (q.id = p ∧ q.is_active = true)) = some post)
    (hip : ip ≠ "")
    (herr : record_view db now p ip uid ua = .error e) :
    get_post_detail db now p uid (some ip) ua = .error e := by
  unfold get_post_detail
  rw [hpost]
  simp [hip, herr]

/-- Witness for the amended C4: the propagation applied to the concrete
failing database. -/
theorem get_post_detail_propagates_view_error_witness :
    (pdCexDB.posts.find? (fun q => decide (q.id = 1 ∧ q.is_active = true)) =
        some ⟨1, 9, true⟩ ∧
      ("1.2.3.4" : String) ≠ "" ∧
      record_view pdCexDB 0 1 "1.2.3.4" none none = .error "view save failed") ∧
    get_post_detail pdCexDB 0 1 none (some "1.2.3.4") none = .error "view save failed" :=
  ⟨⟨by rfl, by decide, by rfl⟩,
    get_post_detail_propagates_view_error pdCexDB 0 1 none "1.2.3.4" none
      ⟨1, 9, true⟩ "view save failed" (by rfl) (by decide) (by rfl)⟩

/-! ## Claim C9 — the view is recorded, but no detail is ever returned -/

/-- C9 (code bug): on an existing active post the view is indeed recorded
(and the counts are computed on the post-recording state) before the
comment fetch — but that fetch always raises `FieldError`, so
`get_post_detail` never returns a `PostDetail`, and no response carrying
the incremented `views_count` exists. -/
theorem get_post_detail_raises_after_recording :
    record_view viewCexDB0 0 1 "a" (some 7) none = .ok (true, viewWitDB1) ∧
    get_post_detail viewCexDB0 0 1 (some 7) (some "a") none = .error parentFieldError :=
  ⟨rfl, rfl⟩

end PostHub
